import Mathlib

/-!
# Verification of the debt-dashboard data pipeline

Shallow embedding of the two source files of the repository:

* `update_data.py` — refresh job: paginated US fetch, per-tenor Euro fetch,
  numeric/date coercions, maturity binning, cache writing;
* `app.py` — Flask handler: cache loading, quarterly aggregation and
  percentage-mix computation for the US branch, Euro chart construction,
  placeholder pages for missing caches.

Machine reals of the Python/pandas code are modelled over `ℚ`, with the
IEEE special values that the pipeline can actually produce (`NaN`, `±inf`
from division by zero) made explicit in the `PVal` type.  Dates are
concrete `(year, month, day)` triples; `Timestamp` subtraction in days is
the standard civil-calendar day-number difference.  A pandas `NaN`/`NaT`
entry of a column is an `Option` `none`; `errors ^= coerce` coercions and
`fillna` are explicit.
-/

/-- A calendar date, as carried by the pandas `Timestamp` columns
(`issue_date`, `maturity_date`, `auction_date`). -/
structure Date where
  year : Nat
  month : Nat
  day : Nat
deriving DecidableEq, Repr

/-- Monotone key for comparing dates (valid dates have `month ≤ 12`,
`day ≤ 31`, so lexicographic comparison agrees with this key).  Mirrors
pandas `Timestamp` ordering used by the date-range mask in `app.py`. -/
def Date.key (d : Date) : Nat :=
  d.year * 10000 + d.month * 100 + d.day

/-- Proleptic-Gregorian day number (days-from-civil algorithm), so that
`(maturity_date - issue_date).dt.days` of `update_data.py` line 88 is the
difference of day numbers. -/
def Date.toDayNumber (dt : Date) : Int :=
  let y : Int := (dt.year : Int) - (if dt.month ≤ 2 then 1 else 0)
  let m : Int := dt.month
  let d : Int := dt.day
  let era : Int := Int.fdiv y 400
  let yoe : Int := y - era * 400
  let mp : Int := Int.emod (m + 9) 12
  let doy : Int := (153 * mp + 2) / 5 + d - 1
  let doe : Int := yoe * 365 + yoe / 4 - yoe / 100 + doy
  era * 146097 + doe - 719468

/-- Calendar quarter of a date: `(year, quarter index 0..3)`.  This is the
grouping key of `resample Q` / `pd.Grouper freq Q` in `app.py`
lines 133-134 (quarters are Jan-Mar, Apr-Jun, Jul-Sep, Oct-Dec). -/
def quarterOf (d : Date) : Nat × Nat :=
  (d.year, (d.month - 1) / 3)

/-!
## The maturity binner (`update_data.py` lines 89-96)

`duration_days` is a float column: a missing (`NaT`) maturity date gives a
`NaN` duration.  In Python every comparison with `NaN` is `False`, so the
comparisons of `assign_maturity_bin` are embedded as boolean tests that
are `false` on an undefined operand.
-/

/-- Python `days <= c` where `days` may be `NaN` (`none`): `NaN <= c` is
`False`. -/
def fleZ : Option Int → Int → Bool
  | none, _ => false
  | some x, c => x ≤ c

/-- Python `days < c` where `days` may be `NaN` (`none`): `NaN < c` is
`False`. -/
def fltZ : Option Int → Int → Bool
  | none, _ => false
  | some x, c => x < c

/-- `assign_maturity_bin` of `update_data.py` lines 89-96, applied to the
(possibly `NaN`) `duration_days` value. -/
def assign_maturity_bin (days : Option Int) : String :=
  if fleZ days 0 then "Other"
  else if fltZ days 30 then "< 1 Month"
  else if fltZ days 91 then "1-3 Months"
  else if fltZ days 365 then "3-12 Months"
  else if fltZ days (365 * 3) then "1-3 Years"
  else if fltZ days (365 * 10) then "3-10 Years"
  else "10+ Years"

/-- `US_PLOT_ORDER` of `app.py` line 15: the seven fixed US bucket
labels. -/
def US_PLOT_ORDER : List String :=
  ["< 1 Month", "1-3 Months", "3-12 Months", "1-3 Years", "3-10 Years",
   "10+ Years", "Other"]

/-- `US_PLOTLY_COLORS` of `app.py` line 16, as a lookup. -/
def usColor (cat : String) : String :=
  (List.lookup cat
    [("< 1 Month", "#d53e4f"), ("1-3 Months", "#f46d43"),
     ("3-12 Months", "#fdae61"), ("1-3 Years", "#abdda4"),
     ("3-10 Years", "#3288bd"), ("10+ Years", "#5e4fa2"),
     ("Other", "#cccccc")]).getD ""

/-- On a defined duration the binner is the plain chain of integer
threshold tests. -/
lemma assign_maturity_bin_some (x : Int) :
    assign_maturity_bin (some x) =
      if x ≤ 0 then "Other"
      else if x < 30 then "< 1 Month"
      else if x < 91 then "1-3 Months"
      else if x < 365 then "3-12 Months"
      else if x < 365 * 3 then "1-3 Years"
      else if x < 365 * 10 then "3-10 Years"
      else "10+ Years" := by
  simp [assign_maturity_bin, fleZ, fltZ]

/-- The binner only ever produces one of the seven fixed labels. -/
lemma assign_maturity_bin_mem (d : Option Int) :
    assign_maturity_bin d ∈ US_PLOT_ORDER := by
  cases d with
  | none => decide
  | some x =>
      rw [assign_maturity_bin_some]
      split_ifs <;> decide

/-!
## US records and the refresh-time processing (`update_data.py` lines 81-97)

A raw record is one JSON element of a fetched `data` array, with the
coercions of lines 82-87 already reflected in the field types: a
`maturity_date`/`auction_date` that fails `pd.to_datetime(errors =
coerce)` is `none` (`NaT`), a `total_accepted`/`offering_amt` that fails
`pd.to_numeric(errors = coerce)` is `none` (`NaN`, later `fillna(0)`).
-/

structure RawAuctionRecord where
  issue_date : Date
  maturity_date : Option Date
  auction_date : Option Date
  total_accepted : Option ℚ
  offering_amt : Option ℚ
  security_term : String
deriving DecidableEq, Repr

/-- A processed row of the US cache DataFrame, after `update_us_cache`
added `duration_days` and `maturity_bin` (`update_data.py` lines 88-97). -/
structure USRecord where
  issue_date : Date
  maturity_date : Option Date
  auction_date : Option Date
  total_accepted : ℚ
  offering_amt : ℚ
  security_term : String
  duration_days : Option Int
  maturity_bin : String
deriving DecidableEq, Repr

/-- The column-wise processing of `update_us_cache` (`update_data.py`
lines 82-97): `fillna(0)` on the numeric columns, `duration_days =
(maturity_date - issue_date).dt.days` (`NaN` when the maturity date is
`NaT`), and `maturity_bin = duration_days.apply(assign_maturity_bin)`. -/
def process_us_records (raws : List RawAuctionRecord) : List USRecord :=
  raws.map fun r =>
    let dur : Option Int :=
      r.maturity_date.map fun m => m.toDayNumber - r.issue_date.toDayNumber
    { issue_date := r.issue_date
      maturity_date := r.maturity_date
      auction_date := r.auction_date
      total_accepted := r.total_accepted.getD 0
      offering_amt := r.offering_amt.getD 0
      security_term := r.security_term
      duration_days := dur
      maturity_bin := assign_maturity_bin dur }

/-!
## Pandas float values with the reachable IEEE specials

The percentage table `quarterly_mix_nominal.divide(quarterly_issuance,
axis=0).fillna(0) * 100` (`app.py` line 135) can produce `NaN` (`0/0`,
turned into `0` by `fillna`) and `±inf` (`x/0` with `x ≠ 0`, which
`fillna` leaves alone).  `PVal` makes those outcomes explicit over exact
rationals.
-/

inductive PVal where
  | val : ℚ → PVal
  | nan : PVal
  | pinf : PVal
  | ninf : PVal
deriving DecidableEq, Repr

/-- IEEE addition on the values the pipeline can produce. -/
def PVal.add : PVal → PVal → PVal
  | .val a, .val b => .val (a + b)
  | .nan, _ => .nan
  | _, .nan => .nan
  | .pinf, .ninf => .nan
  | .ninf, .pinf => .nan
  | .pinf, _ => .pinf
  | _, .pinf => .pinf
  | .ninf, _ => .ninf
  | _, .ninf => .ninf

/-- Sum of a column of float values. -/
def psum (l : List PVal) : PVal := l.foldr PVal.add (.val 0)

/-- IEEE division of two finite values: `0/0 = NaN`, `x/0 = ±inf` for
`x ≠ 0`. -/
def pdiv (x y : ℚ) : PVal :=
  if y = 0 then (if x = 0 then .nan else if 0 < x then .pinf else .ninf)
  else .val (x / y)

/-- `fillna(0)`: replaces `NaN` and nothing else. -/
def pfill0 : PVal → PVal
  | .nan => .val 0
  | v => v

/-- Multiplication of a float value by the scalar `100`. -/
def pscale100 : PVal → PVal
  | .val q => .val (q * 100)
  | v => v

/-- Python `v > 0` on a float value (`NaN > 0` is `False`). -/
def ppos : PVal → Bool
  | .val q => decide (0 < q)
  | .pinf => true
  | _ => false

/-!
## US quarterly aggregation (`app.py` lines 133-135)

The grouped tables are embedded as functions of `(quarter, bucket)`; the
column set of the `unstack` result is the list of distinct `maturity_bin`
values of the input rows.
-/

/-- `df_filtered.resample(Q)[total_accepted].sum()` at quarter `q`
(`app.py` line 133). -/
def quarterly_issuance (rows : List USRecord) (q : Nat × Nat) : ℚ :=
  ((rows.filter fun r => decide (quarterOf r.issue_date = q)).map
    fun r => r.total_accepted).sum

/-- `df_filtered.groupby([Grouper(freq Q), maturity_bin])[total_accepted]
.sum().unstack(fill_value=0)` at cell `(q, b)` (`app.py` line 134). -/
def quarterly_mix_nominal (rows : List USRecord) (q : Nat × Nat) (b : String) : ℚ :=
  ((rows.filter fun r =>
      decide (quarterOf r.issue_date = q ∧ r.maturity_bin = b)).map
    fun r => r.total_accepted).sum

/-- `quarterly_mix_nominal.divide(quarterly_issuance, axis=0).fillna(0)
* 100` at cell `(q, b)` (`app.py` line 135). -/
def quarterly_mix_pct (rows : List USRecord) (q : Nat × Nat) (b : String) : PVal :=
  pscale100 (pfill0 (pdiv (quarterly_mix_nominal rows q b)
    (quarterly_issuance rows q)))

/-- The column labels of the `unstack` table: the distinct `maturity_bin`
values present in the rows. -/
def tableBins (rows : List USRecord) : List String :=
  (rows.map fun r => r.maturity_bin).dedup

/-- The quarter index of the aggregated tables: the distinct quarters
present in the rows. -/
def usQuarterList (rows : List USRecord) : List (Nat × Nat) :=
  (rows.map fun r => quarterOf r.issue_date).dedup

/-!
## Euro fetch and monthly consolidation (`update_data.py` lines 22-48)

Months are abstract `Nat` indices (the `TIME_PERIOD` axis).  A fetched
SDMX series is a list of `(month, value)` points where a `none` value is
a `NaN` that `dropna(subset=[Issuance])` removes.  A tenor whose request
raises is a `fail` outcome: line 34 catches the exception and skips the
tenor.
-/

/-- Tenor names in loop order: `EURO_TENORS` of `update_data.py`
line 11 / `EURO_PLOT_ORDER` of `app.py` line 12. -/
def EURO_PLOT_ORDER : List String :=
  ["Up to 1Y", "1Y-2Y", "2Y-5Y", "5Y-10Y", "10Y+"]

/-- `EURO_PLOTLY_COLORS` of `app.py` line 13 (`dict.get`: empty on an
unknown key). -/
def euroColor (cat : String) : String :=
  (List.lookup cat
    [("Up to 1Y", "#3288bd"), ("1Y-2Y", "#abdda4"), ("2Y-5Y", "#fdae61"),
     ("5Y-10Y", "#f46d43"), ("10Y+", "#d53e4f")]).getD ""

/-- Outcome of one per-tenor SDMX request (`update_data.py` lines 30-35):
either a series of monthly points (`none` value = `NaN`) or a raised,
caught exception. -/
inductive TenorResp where
  | ok (series : List (Nat × Option ℚ))
  | fail
deriving DecidableEq

/-- The `country_data_frames` list built by the per-tenor loop of
`get_and_process_euro_data` (lines 26-36): successful tenors in loop
order, failures skipped. -/
def euroFrames (upstream : String → TenorResp) :
    List (String × List (Nat × Option ℚ)) :=
  EURO_PLOT_ORDER.filterMap fun t =>
    match upstream t with
    | .ok s => some (t, s)
    | .fail => none

/-- The long table after `concat`, `melt` and `dropna(subset=[Issuance])`
(lines 39-45): one `(month, tenor, value)` row per non-`NaN` point,
tenor-major like `melt`. -/
def euroLong (upstream : String → TenorResp) : List (Nat × String × ℚ) :=
  (euroFrames upstream).flatMap fun ts =>
    ts.2.filterMap fun mv =>
      match mv.2 with
      | some x => some (mv.1, ts.1, x)
      | none => none

/-- Column labels of the `unstack` result: distinct tenors with at least
one surviving point, in melt order. -/
def euroColumns (upstream : String → TenorResp) : List String :=
  ((euroLong upstream).map fun r => r.2.1).dedup

/-- Row index of the `unstack` result: distinct months with at least one
surviving point. -/
def euroMonths (upstream : String → TenorResp) : List Nat :=
  ((euroLong upstream).map fun r => r.1).dedup

/-- One cell of the monthly summary: `groupby([Grouper(freq M), Tenor])
[Issuance].sum().unstack(fill_value=0)` (line 47). -/
def euroCell (upstream : String → TenorResp) (m : Nat) (t : String) : ℚ :=
  (((euroLong upstream).filter fun r => decide (r.1 = m ∧ r.2.1 = t)).map
    fun r => r.2.2).sum

/-- The cached Euro monthly summary table: labelled columns, one row per
month holding one value per column. -/
structure EuroTable where
  cols : List String
  rows : List (Nat × List ℚ)
deriving DecidableEq

/-- `get_and_process_euro_data` (lines 22-48): `None` when every tenor
request failed (`if not country_data_frames: return None`, line 38),
otherwise the consolidated monthly summary. -/
def get_and_process_euro_data (upstream : String → TenorResp) :
    Option EuroTable :=
  if euroFrames upstream = [] then none
  else some
    { cols := euroColumns upstream
      rows := (euroMonths upstream).map fun m =>
        (m, (euroColumns upstream).map fun t => euroCell upstream m t) }

/-- One country step of `update_euro_cache` (lines 104-109): the cache
file is overwritten only when the fetch produced a table; on `None` the
prior snapshot (possibly absent) is left as is. -/
def update_euro_cache_country (upstream : String → TenorResp)
    (prior : Option EuroTable) : Option EuroTable :=
  match get_and_process_euro_data upstream with
  | some t => some t
  | none => prior

/-!
## US fetch and cache update (`update_data.py` lines 50-100, 114-125)

The upstream API is a function from page number to response; a `fail`
response is any `requests` exception (non-2xx via `raise_for_status`,
timeout, network error).  The `except` block of lines 67-69 makes any
such failure on any visited page return `None`.
-/

/-- One page of the paginated US endpoint: the parsed `data` array and
the `meta.total-pages` field, or a raised `RequestException`. -/
inductive PageResp where
  | ok (data : List RawAuctionRecord) (totalPages : Nat)
  | fail

/-- The page loop of lines 61-66: fetch each remaining page, abort on the
first failure. -/
def fetchRest (upstream : Nat → PageResp) :
    List Nat → List RawAuctionRecord → Option (List RawAuctionRecord)
  | [], acc => some acc
  | p :: ps, acc =>
      match upstream p with
      | .ok d _ => fetchRest upstream ps (acc ++ d)
      | .fail => none

/-- `fetch_us_data` (lines 50-71): page 1 determines `total_pages`, pages
`2..total_pages` are accumulated, any failure yields `None`. -/
def fetch_us_data (upstream : Nat → PageResp) :
    Option (List RawAuctionRecord) :=
  match upstream 1 with
  | .fail => none
  | .ok d tp => fetchRest upstream (List.range' 2 (tp - 1)) d

/-- Result of one refresh run: the cache file state afterwards and the
log lines the run printed. -/
structure USUpdateResult where
  cache : Option (List USRecord)
  logs : List String
deriving DecidableEq

/-- `update_us_cache` (lines 73-100) as a transition on the cache-file
state: a failed fetch logs and returns without touching the file; a
successful fetch processes the records and overwrites the file. -/
def update_us_cache (upstream : Nat → PageResp)
    (prior : Option (List USRecord)) : USUpdateResult :=
  match fetch_us_data upstream with
  | none =>
      { cache := prior
        logs := ["CRITICAL: Failed to fetch US data",
                 "US data fetch failed. Cache not updated."] }
  | some raws =>
      { cache := some (process_us_records raws)
        logs := ["US Fetch complete.",
                 "US data cache updated and saved."] }

/-- The `daily` entry point of the main block (lines 117-118): runs
`update_us_cache` and falls off the end of the script, so the process
exit status is `0` on every path — the caught fetch failure never
reaches `sys.exit`. -/
def main_daily (upstream : Nat → PageResp)
    (prior : Option (List USRecord)) : USUpdateResult × Nat :=
  (update_us_cache upstream prior, 0)

/-!
## Chart fragments (`app.py` lines 21-45 and 136-151)

`pio.to_html` output is opaque; a chart fragment is either a literal
`<p>` message or an embedded figure.  A figure keeps what the `go.Scatter`
calls feed it: per-trace name, colour, x-axis points (month index for
Euro, quarter for US) and y-values, plus the vertical guide-line shapes.
-/

structure Trace where
  name : String
  color : String
  x : List Nat
  y : List PVal
deriving DecidableEq

structure Figure where
  traces : List Trace
  shapes : List Nat
deriving DecidableEq

inductive Html where
  | text (s : String)
  | chart (f : Figure)
deriving DecidableEq

/-- `df.sum(axis=1)` for one row of a Euro monthly table. -/
def rowTotal (r : Nat × List ℚ) : ℚ := r.2.sum

/-- `df[monthly_total > 0]` (`app.py` line 25): the rows whose total
issuance across tenors is strictly positive. -/
def df_positive (t : EuroTable) : List (Nat × List ℚ) :=
  t.rows.filter fun r => decide (0 < rowTotal r)

/-- Column access by label for one row (0 for a label the table lacks —
unreachable: traces are only built for `cat in df.columns`). -/
def euroColCell (cols : List String) (r : Nat × List ℚ) (cat : String) : ℚ :=
  ((cols.zip r.2).lookup cat).getD 0

/-- One percentage cell of `df_pct = df_positive.div(monthly_total_positive,
axis=0) * 100` (`app.py` line 29): only rows of `df_positive` are ever
divided, so the denominator is never zero. -/
def euroPctCell (cols : List String) (r : Nat × List ℚ) (cat : String) : ℚ :=
  euroColCell cols r cat / rowTotal r * 100

/-- The traces of the Euro percentage-mix figure (`app.py` lines 31-33):
one per tenor of `EURO_PLOT_ORDER` that is a column of the table and has
positive column sum over `df_pct`. -/
def euroPctTraces (t : EuroTable) : List Trace :=
  EURO_PLOT_ORDER.filterMap fun cat =>
    if cat ∈ t.cols ∧
        0 < ((df_positive t).map fun r => euroPctCell t.cols r cat).sum then
      some { name := cat, color := euroColor cat,
             x := (df_positive t).map fun r => r.1,
             y := (df_positive t).map fun r =>
               PVal.val (euroPctCell t.cols r cat) }
    else none

/-- The traces of the Euro nominal figure over `df_billions =
df_positive / 1000` (`app.py` lines 35-40). -/
def euroNomTraces (t : EuroTable) : List Trace :=
  EURO_PLOT_ORDER.filterMap fun cat =>
    if cat ∈ t.cols ∧
        0 < ((df_positive t).map fun r => euroColCell t.cols r cat / 1000).sum then
      some { name := cat, color := euroColor cat,
             x := (df_positive t).map fun r => r.1,
             y := (df_positive t).map fun r =>
               PVal.val (euroColCell t.cols r cat / 1000) }
    else none

/-- `create_euro_plotly_charts` (`app.py` lines 21-45): the pair
(percentage-mix chart, nominal chart), with the guide-line shapes at each
month of `df_positive`. -/
def create_euro_plotly_charts (df : Option EuroTable) (_country : String) :
    Html × Html :=
  match df with
  | none => (.text "No data to display.", .text "No data to display.")
  | some t =>
      if t.rows.isEmpty || t.cols.isEmpty then
        (.text "No data to display.", .text "No data to display.")
      else if (df_positive t).isEmpty then
        (.text "No positive issuance data to plot.",
         .text "No positive issuance data to plot.")
      else
        (.chart { traces := euroPctTraces t,
                  shapes := (df_positive t).map fun r => r.1 },
         .chart { traces := euroNomTraces t,
                  shapes := (df_positive t).map fun r => r.1 })

/-!
## The web handler (`app.py` lines 91-164)

The environment holds the on-disk cache contents (`none` = file absent)
and the current date; a request holds the three query parameters.  Dates
are compared through `Date.key`, matching pandas `Timestamp` ordering.
-/

structure Env where
  usCacheFile : Option (List USRecord)
  euroCacheFile : String → Option EuroTable
  today : Date

structure Request where
  country : Option String
  start_date : Option Date
  end_date : Option Date

/-- The startup load of `app.py` lines 92-97: `read_pickle` or, on
`FileNotFoundError`, an empty DataFrame. -/
def US_DASHBOARD_DATA (env : Env) : List USRecord :=
  env.usCacheFile.getD []

def EURO_COUNTRY_CODES : List String := ["DE", "IT", "FR"]

/-- `EURO_COUNTRIES` of `app.py` line 11. -/
def euroCountryName : String → String
  | "DE" => "Germany"
  | "IT" => "Italy"
  | "FR" => "France"
  | _ => ""

/-- `US_DASHBOARD_DATA[issue_date].min()` over a nonempty table (the
caller guards emptiness). -/
def minIssueDate (rows : List USRecord) : Date :=
  match rows with
  | [] => { year := 0, month := 0, day := 0 }
  | r :: rs =>
      rs.foldl (fun acc x =>
        if x.issue_date.key < acc.key then x.issue_date else acc) r.issue_date

/-- `auction_date > today_pd` for a possibly-`NaT` auction date (a `NaT`
comparison is `False`, so such rows are excluded from the future table). -/
def auctionAfter (r : USRecord) (today : Date) : Bool :=
  match r.auction_date with
  | some d => decide (today.key < d.key)
  | none => false

/-- `df_future.sort_values(auction_date)` key. -/
def auctionKey (r : USRecord) : Nat :=
  (r.auction_date.map Date.key).getD 0

/-- The rendered page: the two chart fragments, the forthcoming-auctions
rows (sorted ascending by auction date), and the template context. -/
structure Page where
  title : String
  chart_html : Html
  nominal_chart_html : Html
  future_auctions : List USRecord
  selected_country : String

/-- The US pair of figures (`app.py` lines 136-149): one trace per bucket
of `US_PLOT_ORDER` that is a column of the table and has positive column
sum, quarterly guide-line shapes, y-values from the percentage and the
billions-scaled nominal tables. -/
def usFigures (df : List USRecord) : Figure × Figure :=
  let qs := usQuarterList df
  let pctTraces := US_PLOT_ORDER.filterMap fun cat =>
    if cat ∈ tableBins df ∧
        ppos (psum (qs.map fun q => quarterly_mix_pct df q cat)) = true then
      some { name := cat, color := usColor cat,
             x := qs.map fun q => q.1 * 4 + q.2,
             y := qs.map fun q => quarterly_mix_pct df q cat }
    else none
  let nomTraces := US_PLOT_ORDER.filterMap fun cat =>
    if cat ∈ tableBins df ∧
        0 < (qs.map fun q => quarterly_mix_nominal df q cat).sum then
      some { name := cat, color := usColor cat,
             x := qs.map fun q => q.1 * 4 + q.2,
             y := qs.map fun q =>
               PVal.val (quarterly_mix_nominal df q cat / 1000000000) }
    else none
  ({ traces := pctTraces, shapes := qs.map fun q => q.1 * 4 + q.2 },
   { traces := nomTraces, shapes := qs.map fun q => q.1 * 4 + q.2 })

/-- The US branch of `dashboard` (`app.py` lines 107-151). -/
def usBranch (env : Env) (req : Request) : Page :=
  let usData := US_DASHBOARD_DATA env
  if usData.isEmpty then
    { title := "U.S. Treasury Debt Issuance Dashboard"
      chart_html := .text "US data cache is empty. Please run the update script."
      nominal_chart_html := .text "US data cache is empty. Please run the update script."
      future_auctions := []
      selected_country := "US" }
  else
    let dstart := req.start_date.getD (minIssueDate usData)
    let dend := req.end_date.getD env.today
    let df_future :=
      (usData.filter fun r => auctionAfter r env.today).mergeSort
        fun a b => auctionKey a ≤ auctionKey b
    let df_filtered := usData.filter fun r =>
      decide (dstart.key ≤ r.issue_date.key ∧ r.issue_date.key ≤ dend.key)
    if df_filtered.isEmpty then
      { title := "U.S. Treasury Debt Issuance Dashboard"
        chart_html := .text "No data for selected date range."
        nominal_chart_html := .text "No data for selected date range."
        future_auctions := df_future
        selected_country := "US" }
    else
      let figs := usFigures df_filtered
      { title := "U.S. Treasury Debt Issuance Dashboard"
        chart_html := .chart figs.1
        nominal_chart_html := .chart figs.2
        future_auctions := df_future
        selected_country := "US" }

/-- The Euro branch of `dashboard` (`app.py` lines 153-162): per-request
`read_pickle` with the `FileNotFoundError` placeholder. -/
def euroBranch (env : Env) (selected : String) : Page :=
  match env.euroCacheFile selected with
  | some tbl =>
      let charts := create_euro_plotly_charts (some tbl) (euroCountryName selected)
      { title := euroCountryName selected ++ " Debt Issuance Dashboard"
        chart_html := charts.1
        nominal_chart_html := charts.2
        future_auctions := []
        selected_country := selected }
  | none =>
      { title := euroCountryName selected ++ " Debt Issuance Dashboard"
        chart_html := .text ("Euro data cache for " ++ euroCountryName selected
          ++ " is empty. Please run the update script.")
        nominal_chart_html := .text ("Euro data cache for " ++ euroCountryName selected
          ++ " is empty. Please run the update script.")
        future_auctions := []
        selected_country := selected }

/-- `dashboard` (`app.py` lines 100-164): country selection defaulting to
`US`; an unknown code renders the bare template with empty fragments. -/
def dashboard (env : Env) (req : Request) : Page :=
  let selected := req.country.getD "US"
  if selected = "US" then usBranch env req
  else if selected ∈ EURO_COUNTRY_CODES then euroBranch env selected
  else
    { title := "Debt Issuance Dashboard"
      chart_html := .text ""
      nominal_chart_html := .text ""
      future_auctions := []
      selected_country := selected }

/-!
## Helper lemmas
-/

/-- Splitting a mapped sum along a boolean predicate. -/
lemma sum_filter_add_sum_filter_not {α : Type} (l : List α) (p : α → Bool)
    (f : α → ℚ) :
    ((l.filter p).map f).sum + ((l.filter fun a => !(p a)).map f).sum
      = (l.map f).sum := by
  induction l with
  | nil => simp
  | cons a l ih =>
      rcases Bool.eq_false_or_eq_true (p a) with h | h
      · simp [List.filter_cons, h]
        linarith [ih]
      · simp [List.filter_cons, h]
        linarith [ih]

/-- Summing group sums over a duplicate-free list of keys that covers
every element recovers the total sum. -/
lemma sum_over_keys {α : Type} (keys : List String) (l : List α)
    (key : α → String) (f : α → ℚ) (hnd : keys.Nodup)
    (hall : ∀ a ∈ l, key a ∈ keys) :
    (keys.map fun k =>
        ((l.filter fun a => decide (key a = k)).map f).sum).sum
      = (l.map f).sum := by
  induction keys generalizing l with
  | nil =>
      have hl : l = [] := by
        cases l with
        | nil => rfl
        | cons a t => exact absurd (hall a (by simp)) (by simp)
      simp [hl]
  | cons k ks ih =>
      have hk : k ∉ ks := (List.nodup_cons.mp hnd).1
      have hnd2 : ks.Nodup := (List.nodup_cons.mp hnd).2
      have hmap : ∀ k2 ∈ ks,
          ((l.filter fun a => decide (key a = k2)).map f).sum
            = (((l.filter fun a => !(decide (key a = k))).filter
                fun a => decide (key a = k2)).map f).sum := by
        intro k2 hk2
        have hne : k2 ≠ k := fun h => hk (h ▸ hk2)
        rw [List.filter_filter]
        congr 1
        apply congrArg
        apply List.filter_congr
        intro a _
        by_cases h : key a = k2
        · simp [h, hne]
        · simp [h]
      have hall2 : ∀ a ∈ l.filter fun a => !(decide (key a = k)),
          key a ∈ ks := by
        intro a ha
        rcases List.mem_filter.mp ha with ⟨hal, hnk⟩
        rcases List.mem_cons.mp (hall a hal) with h | h
        · exfalso
          simp [h] at hnk
        · exact h
      have hih := ih (l.filter fun a => !(decide (key a = k))) hnd2 hall2
      calc ((k :: ks).map fun k2 =>
              ((l.filter fun a => decide (key a = k2)).map f).sum).sum
          = ((l.filter fun a => decide (key a = k)).map f).sum
            + (ks.map fun k2 =>
                ((l.filter fun a => decide (key a = k2)).map f).sum).sum := by
              simp
        _ = ((l.filter fun a => decide (key a = k)).map f).sum
            + (ks.map fun k2 =>
                (((l.filter fun a => !(decide (key a = k))).filter
                   fun a => decide (key a = k2)).map f).sum).sum := by
              rw [List.map_congr_left hmap]
        _ = ((l.filter fun a => decide (key a = k)).map f).sum
            + ((l.filter fun a => !(decide (key a = k))).map f).sum := by
              rw [hih]
        _ = (l.map f).sum :=
              sum_filter_add_sum_filter_not l (fun a => decide (key a = k)) f

/-- The nominal bucket amounts of one quarter, summed over the table
columns, reconcile with the quarter total of `resample`. -/
lemma bins_nominal_sum (rows : List USRecord) (q : Nat × Nat) :
    ((tableBins rows).map fun b => quarterly_mix_nominal rows q b).sum
      = quarterly_issuance rows q := by
  have hnom : ∀ b, quarterly_mix_nominal rows q b
      = (((rows.filter fun r => decide (quarterOf r.issue_date = q)).filter
          fun r => decide (r.maturity_bin = b)).map
            fun r => r.total_accepted).sum := by
    intro b
    unfold quarterly_mix_nominal
    rw [List.filter_filter]
    congr 1
    apply congrArg
    apply List.filter_congr
    intro r _
    by_cases h1 : quarterOf r.issue_date = q <;>
      by_cases h2 : r.maturity_bin = b <;> simp [h1, h2]
  calc ((tableBins rows).map fun b => quarterly_mix_nominal rows q b).sum
      = ((tableBins rows).map fun b =>
          (((rows.filter fun r => decide (quarterOf r.issue_date = q)).filter
            fun r => decide (r.maturity_bin = b)).map
              fun r => r.total_accepted).sum).sum := by
        apply congrArg
        exact List.map_congr_left fun b _ => hnom b
    _ = quarterly_issuance rows q := by
        apply sum_over_keys
        · exact List.nodup_dedup _
        · intro r hr
          rcases List.mem_filter.mp hr with ⟨hrl, _⟩
          exact List.mem_dedup.mpr (List.mem_map.mpr ⟨r, hrl, rfl⟩)

/-- A float-valued column sum of plain values is the plain sum. -/
lemma psum_map_val {α : Type} (l : List α) (g : α → ℚ) :
    psum (l.map fun a => PVal.val (g a)) = PVal.val ((l.map g).sum) := by
  induction l with
  | nil => rfl
  | cons a t ih =>
      simp only [List.map_cons, psum, List.foldr_cons, List.sum_cons]
      rw [show (List.foldr PVal.add (PVal.val 0) (t.map fun a => PVal.val (g a)))
        = psum (t.map fun a => PVal.val (g a)) from rfl, ih]
      rfl

/-- In a list of non-negative rationals summing to zero, every element is
zero. -/
lemma eq_zero_of_mem_of_sum_eq_zero (l : List ℚ)
    (hnn : ∀ x ∈ l, 0 ≤ x) (hs : l.sum = 0) : ∀ x ∈ l, x = 0 := by
  induction l with
  | nil => intro x hx; exact absurd hx (by simp)
  | cons a t ih =>
      have ha : 0 ≤ a := hnn a (by simp)
      have ht : 0 ≤ t.sum := List.sum_nonneg fun x hx => hnn x (by simp [hx])
      have hs2 : a + t.sum = 0 := by simpa using hs
      have ha0 : a = 0 := by linarith
      have hts : t.sum = 0 := by linarith
      intro x hx
      rcases List.mem_cons.mp hx with h | h
      · exact h ▸ ha0
      · exact ih (fun y hy => hnn y (by simp [hy])) hts x h

/-!
## Claim theorems
-/

/-- C1 (counterexample): the claim says `bin(d) = Other` iff `d ≤ 0` or
`d` is undefined, but on an undefined (`NaN`) duration every Python
comparison is `False`, so `assign_maturity_bin` falls through every
branch and returns `10+ Years`, not `Other`. -/
theorem C1_nan_counterexample :
    assign_maturity_bin none = "10+ Years"
  ∧ assign_maturity_bin none ≠ "Other" :=
  ⟨rfl, by decide⟩

/-- C1 (amended): for every duration `d` (integer or undefined), the
binner returns one of the seven fixed US labels; it returns `Other` iff
`d` is defined and `d ≤ 0`; an undefined duration yields `10+ Years`. -/
theorem C1_bin_labels_amended (d : Option Int) :
    assign_maturity_bin d ∈ US_PLOT_ORDER
  ∧ (assign_maturity_bin d = "Other" ↔ ∃ x, d = some x ∧ x ≤ 0)
  ∧ (d = none → assign_maturity_bin d = "10+ Years") := by
  refine ⟨assign_maturity_bin_mem d, ?_, ?_⟩
  · cases d with
    | none =>
        constructor
        · intro h
          exact absurd h (by decide)
        · rintro ⟨x, hx, _⟩
          cases hx
    | some x =>
        rw [assign_maturity_bin_some]
        by_cases h : x ≤ 0
        · rw [if_pos h]
          exact ⟨fun _ => ⟨x, rfl, h⟩, fun _ => rfl⟩
        · rw [if_neg h]
          constructor
          · intro hcontra
            exfalso
            revert hcontra
            split_ifs <;> decide
          · rintro ⟨y, hy, hy0⟩
            injection hy with h2
            subst h2
            exact absurd hy0 h
  · intro h
    subst h
    rfl

/-- C1 (witness for the amended theorem): a concrete non-positive defined
duration maps to `Other`. -/
theorem C1_bin_labels_amended_witness :
    assign_maturity_bin (some (-5)) = "Other" :=
  (C1_bin_labels_amended (some (-5))).2.1.mpr ⟨-5, rfl, by decide⟩

/-- C2: on every defined integer duration the binner returns exactly the
label of the spec thresholds (the code spells the first label
`< 1 Month`), including the three scenario points 45, 0 and 3650. -/
theorem C2_thresholds (d : Int) :
    (d ≤ 0 → assign_maturity_bin (some d) = "Other")
  ∧ (0 < d → d < 30 → assign_maturity_bin (some d) = "< 1 Month")
  ∧ (30 ≤ d → d < 91 → assign_maturity_bin (some d) = "1-3 Months")
  ∧ (91 ≤ d → d < 365 → assign_maturity_bin (some d) = "3-12 Months")
  ∧ (365 ≤ d → d < 1095 → assign_maturity_bin (some d) = "1-3 Years")
  ∧ (1095 ≤ d → d < 3650 → assign_maturity_bin (some d) = "3-10 Years")
  ∧ (3650 ≤ d → assign_maturity_bin (some d) = "10+ Years")
  ∧ assign_maturity_bin (some 45) = "1-3 Months"
  ∧ assign_maturity_bin (some 0) = "Other"
  ∧ assign_maturity_bin (some 3650) = "10+ Years" := by
  refine ⟨fun h => ?_, fun h1 h2 => ?_, fun h1 h2 => ?_, fun h1 h2 => ?_,
    fun h1 h2 => ?_, fun h1 h2 => ?_, fun h => ?_,
    by decide, by decide, by decide⟩ <;>
  · rw [assign_maturity_bin_some]
    split_ifs <;> first | rfl | (exfalso; omega)

/-- C2 (witness): duration 45 lands in the `1-3 Months` bucket. -/
theorem C2_thresholds_witness :
    assign_maturity_bin (some 45) = "1-3 Months" :=
  (C2_thresholds 45).2.2.1 (by decide) (by decide)

/-- C3: in the US quarterly percentage table, for every quarter whose
total of accepted amounts is nonzero, the bucket percentages (each cell
being the bucket sum divided by the quarter total, times 100) sum to 100
across the table columns, given non-negative input amounts. -/
theorem C3_pct_row_sums_100 (rows : List USRecord) (q : Nat × Nat)
    (hnn : ∀ r ∈ rows, 0 ≤ r.total_accepted)
    (hq : quarterly_issuance rows q ≠ 0) :
    psum ((tableBins rows).map fun b => quarterly_mix_pct rows q b)
      = PVal.val 100 := by
  have hmap : ((tableBins rows).map fun b => quarterly_mix_pct rows q b)
      = (tableBins rows).map fun b =>
          PVal.val (quarterly_mix_nominal rows q b
            / quarterly_issuance rows q * 100) := by
    apply List.map_congr_left
    intro b _
    unfold quarterly_mix_pct pdiv
    rw [if_neg hq]
    rfl
  rw [hmap, psum_map_val]
  congr 1
  have hsum : ((tableBins rows).map fun b =>
        quarterly_mix_nominal rows q b / quarterly_issuance rows q * 100)
      = (tableBins rows).map fun b =>
          quarterly_mix_nominal rows q b * (100 / quarterly_issuance rows q) := by
    apply List.map_congr_left
    intro b _
    ring
  rw [hsum, List.sum_map_mul_right, bins_nominal_sum]
  field_simp

/-- C3 (witness): a one-record quarter with amount 50 has bucket shares
summing to 100. -/
theorem C3_pct_row_sums_100_witness :
    quarterly_issuance
        [⟨⟨2024, 1, 10⟩, none, none, 50, 0, "4-Week", none, "Other"⟩]
        (2024, 0) ≠ 0
  ∧ psum ((tableBins
        [⟨⟨2024, 1, 10⟩, none, none, 50, 0, "4-Week", none, "Other"⟩]).map
      fun b => quarterly_mix_pct
        [⟨⟨2024, 1, 10⟩, none, none, 50, 0, "4-Week", none, "Other"⟩]
        (2024, 0) b) = PVal.val 100 :=
  ⟨by norm_num [quarterly_issuance, quarterOf],
   C3_pct_row_sums_100
     [⟨⟨2024, 1, 10⟩, none, none, 50, 0, "4-Week", none, "Other"⟩]
     (2024, 0) (by decide)
     (by norm_num [quarterly_issuance, quarterOf])⟩

/-- C4: for a quarter whose total of (non-negative) accepted amounts is
zero, the percentage computation is total — it never raises — and every
bucket cell of that quarter is 0: the `0/0 = NaN` cells are exactly what
`fillna(0)` replaces. -/
theorem C4_zero_total_pct_zero (rows : List USRecord) (q : Nat × Nat)
    (hnn : ∀ r ∈ rows, 0 ≤ r.total_accepted)
    (hz : quarterly_issuance rows q = 0) :
    ∀ b, quarterly_mix_pct rows q b = PVal.val 0 := by
  intro b
  have hnom : quarterly_mix_nominal rows q b = 0 := by
    apply List.sum_eq_zero
    intro x hx
    rcases List.mem_map.mp hx with ⟨r, hr, rfl⟩
    rcases List.mem_filter.mp hr with ⟨hrl, hcond⟩
    have hqr : quarterOf r.issue_date = q := (of_decide_eq_true hcond).1
    have hmem : r.total_accepted ∈
        (rows.filter fun r => decide (quarterOf r.issue_date = q)).map
          fun r => r.total_accepted :=
      List.mem_map.mpr ⟨r, List.mem_filter.mpr ⟨hrl, by simp [hqr]⟩, rfl⟩
    refine eq_zero_of_mem_of_sum_eq_zero _ ?_ hz _ hmem
    intro y hy
    rcases List.mem_map.mp hy with ⟨s, hs, rfl⟩
    exact hnn s (List.mem_filter.mp hs).1
  unfold quarterly_mix_pct
  rw [hnom, hz]
  simp [pdiv, pfill0, pscale100]

/-- C4 (witness): a quarter holding one record of amount 0 yields
percentage 0 for the `Other` bucket. -/
theorem C4_zero_total_pct_zero_witness :
    quarterly_issuance
        [⟨⟨2024, 1, 10⟩, none, none, 0, 0, "4-Week", none, "Other"⟩]
        (2024, 0) = 0
  ∧ quarterly_mix_pct
        [⟨⟨2024, 1, 10⟩, none, none, 0, 0, "4-Week", none, "Other"⟩]
        (2024, 0) "Other" = PVal.val 0 :=
  ⟨by norm_num [quarterly_issuance, quarterOf],
   C4_zero_total_pct_zero
     [⟨⟨2024, 1, 10⟩, none, none, 0, 0, "4-Week", none, "Other"⟩]
     (2024, 0) (by decide)
     (by norm_num [quarterly_issuance, quarterOf]) "Other"⟩

/-- C5: the column labels of the aggregated quarterly table — the
distinct `maturity_bin` values of any (possibly date-filtered) processed
US record set — are always among the seven fixed labels; no other label
ever appears. -/
theorem C5_columns_subset (raws : List RawAuctionRecord)
    (p : USRecord → Bool) (b : String)
    (hb : b ∈ tableBins ((process_us_records raws).filter p)) :
    b ∈ US_PLOT_ORDER := by
  have hb2 : ∃ r ∈ (process_us_records raws).filter p, r.maturity_bin = b :=
    List.mem_map.mp (List.mem_dedup.mp hb)
  obtain ⟨r, hr, hrb⟩ := hb2
  have hr2 : r ∈ process_us_records raws := (List.mem_filter.mp hr).1
  obtain ⟨raw, _, hraw⟩ := List.mem_map.mp hr2
  have hbin : r.maturity_bin = assign_maturity_bin
      (raw.maturity_date.map fun m =>
        m.toDayNumber - raw.issue_date.toDayNumber) := by
    rw [← hraw]
  rw [← hrb, hbin]
  exact assign_maturity_bin_mem _

/-- C5 (witness): a concrete fetched record (issue 2024-01-10, maturity
2024-03-10, duration 60 days) produces the column `1-3 Months`, which is
among the seven labels. -/
theorem C5_columns_subset_witness :
    "1-3 Months" ∈ tableBins ((process_us_records
      [⟨⟨2024, 1, 10⟩, some ⟨2024, 3, 10⟩, none, some 5, some 5,
        "8-Week"⟩]).filter fun _ => true)
  ∧ "1-3 Months" ∈ US_PLOT_ORDER :=
  ⟨by decide,
   C5_columns_subset
     [⟨⟨2024, 1, 10⟩, some ⟨2024, 3, 10⟩, none, some 5, some 5, "8-Week"⟩]
     (fun _ => true) "1-3 Months" (by decide)⟩

/-- C6 (counterexample): a refresh run in which every page request fails
leaves the cache untouched and logs, but the `daily` invocation then
falls off the end of the script — the process exit status is 0, not the
non-zero status the claim requires. -/
theorem C6_exit_status_counterexample :
    fetch_us_data (fun _ => PageResp.fail) = none
  ∧ (main_daily (fun _ => PageResp.fail) (some [])).1.cache = some []
  ∧ (main_daily (fun _ => PageResp.fail) (some [])).2 = 0 :=
  ⟨rfl, rfl, rfl⟩

/-- C6 (amended): on any failed US fetch the refresh aborts without
writing the cache file (the prior snapshot, present or absent, is left
untouched) and logs the failure, but the process exits with status 0 —
failure is signalled only through the log lines. -/
theorem C6_failed_fetch_amended (upstream : Nat → PageResp)
    (prior : Option (List USRecord))
    (h : fetch_us_data upstream = none) :
    (main_daily upstream prior).1.cache = prior
  ∧ "CRITICAL: Failed to fetch US data" ∈ (main_daily upstream prior).1.logs
  ∧ (main_daily upstream prior).2 = 0 := by
  unfold main_daily update_us_cache
  rw [h]
  exact ⟨rfl, by simp, rfl⟩

/-- C6 (witness): the amended theorem at the all-pages-fail upstream with
a present prior snapshot. -/
theorem C6_failed_fetch_amended_witness :
    (main_daily (fun _ => PageResp.fail) (some [])).1.cache = some []
  ∧ "CRITICAL: Failed to fetch US data"
      ∈ (main_daily (fun _ => PageResp.fail) (some [])).1.logs
  ∧ (main_daily (fun _ => PageResp.fail) (some [])).2 = 0 :=
  C6_failed_fetch_amended (fun _ => PageResp.fail) (some []) rfl

/-- C7: for every Euro-country refresh, (a) every column of a written
cache table belongs to a tenor whose fetch succeeded, (b) a tenor that
succeeds with at least one non-NaN point appears as a column regardless
of the other tenors' failures, and (c) if every tenor fails, no cache is
written — the prior snapshot is left as is. -/
theorem C7_euro_tenor_isolation (upstream : String → TenorResp)
    (prior : Option EuroTable) :
    (∀ tb, get_and_process_euro_data upstream = some tb →
       ∀ t ∈ tb.cols, t ∈ EURO_PLOT_ORDER ∧ upstream t ≠ TenorResp.fail)
  ∧ (∀ t ∈ EURO_PLOT_ORDER, ∀ s m x, upstream t = TenorResp.ok s →
       (m, some x) ∈ s →
       ∀ tb, get_and_process_euro_data upstream = some tb → t ∈ tb.cols)
  ∧ ((∀ t ∈ EURO_PLOT_ORDER, upstream t = TenorResp.fail) →
       update_euro_cache_country upstream prior = prior) := by
  have hcols : ∀ tb, get_and_process_euro_data upstream = some tb →
      tb.cols = euroColumns upstream := by
    intro tb htb
    unfold get_and_process_euro_data at htb
    by_cases hf : euroFrames upstream = []
    · rw [if_pos hf] at htb
      cases htb
    · rw [if_neg hf] at htb
      injection htb with h2
      rw [← h2]
  have hframes : ∀ t s, (t, s) ∈ euroFrames upstream →
      t ∈ EURO_PLOT_ORDER ∧ upstream t = TenorResp.ok s := by
    intro t s hts
    rcases List.mem_filterMap.mp hts with ⟨t2, ht2, heq⟩
    cases hu : upstream t2 with
    | ok s0 =>
        rw [hu] at heq
        injection heq with h3
        rw [Prod.mk.injEq] at h3
        rcases h3 with ⟨h4, h5⟩
        subst h4
        subst h5
        exact ⟨ht2, hu⟩
    | fail =>
        rw [hu] at heq
        cases heq
  refine ⟨?_, ?_, ?_⟩
  · intro tb htb t ht
    rw [hcols tb htb] at ht
    rcases List.mem_map.mp (List.mem_dedup.mp ht) with ⟨row, hrow, hteq⟩
    rcases List.mem_flatMap.mp hrow with ⟨ts, hts, hmem2⟩
    rcases List.mem_filterMap.mp hmem2 with ⟨mv, _, hg⟩
    cases hv : mv.2 with
    | some x =>
        rw [hv] at hg
        injection hg with h6
        have hfr := hframes ts.1 ts.2 (by
          have : ts = (ts.1, ts.2) := rfl
          rw [← this]; exact hts)
        have hrow1 : row.2.1 = ts.1 := by rw [← h6]
        rw [← hteq, hrow1]
        exact ⟨hfr.1, by rw [hfr.2]; intro hc; cases hc⟩
    | none =>
        rw [hv] at hg
        cases hg
  · intro t ht s m x hok hmem tb htb
    rw [hcols tb htb]
    have hfr : (t, s) ∈ euroFrames upstream :=
      List.mem_filterMap.mpr ⟨t, ht, by rw [hok]⟩
    have hlong : (m, t, x) ∈ euroLong upstream :=
      List.mem_flatMap.mpr ⟨(t, s), hfr,
        List.mem_filterMap.mpr ⟨(m, some x), hmem, rfl⟩⟩
    exact List.mem_dedup.mpr (List.mem_map.mpr ⟨(m, t, x), hlong, rfl⟩)
  · intro hall
    have hf : euroFrames upstream = [] := by
      apply List.filterMap_eq_nil_iff.mpr
      intro t ht
      rw [hall t ht]
    unfold update_euro_cache_country get_and_process_euro_data
    rw [if_pos hf]

/-- C7 (witness): one tenor succeeds with one point, the rest fail — the
written table has exactly that tenor as a column; and with a fully
failing upstream the prior cache is untouched. -/
theorem C7_euro_tenor_isolation_witness :
    (∀ tb, get_and_process_euro_data
        (fun t => if t = "2Y-5Y" then TenorResp.ok [(7, some 5)]
          else TenorResp.fail) = some tb → "2Y-5Y" ∈ tb.cols)
  ∧ update_euro_cache_country (fun _ => TenorResp.fail)
      (some { cols := ["Up to 1Y"], rows := [(3, [1])] })
      = some { cols := ["Up to 1Y"], rows := [(3, [1])] } :=
  ⟨fun tb htb =>
    (C7_euro_tenor_isolation
        (fun t => if t = "2Y-5Y" then TenorResp.ok [(7, some 5)]
          else TenorResp.fail) none).2.1
      "2Y-5Y" (by decide) [(7, some 5)] 7 5 (by decide) (by decide) tb htb,
   (C7_euro_tenor_isolation (fun _ => TenorResp.fail)
      (some { cols := ["Up to 1Y"], rows := [(3, [1])] })).2.2
    fun t _ => rfl⟩

/-- C8: when the selected country's cache file is absent the handler
returns the page with the corresponding inline placeholder message in
place of both chart fragments; the handler is a total function, so no
exception escapes (the only raising operation, the per-request Euro
`read_pickle`, is wrapped in the `except` branch modelled here). -/
theorem C8_missing_cache_placeholder (env : Env) (req : Request) :
    (req.country.getD "US" = "US" → env.usCacheFile = none →
       (dashboard env req).chart_html
         = .text "US data cache is empty. Please run the update script."
     ∧ (dashboard env req).nominal_chart_html
         = .text "US data cache is empty. Please run the update script.")
  ∧ (∀ c, req.country.getD "US" = c → c ∈ EURO_COUNTRY_CODES →
       env.euroCacheFile c = none →
       (dashboard env req).chart_html
         = .text ("Euro data cache for " ++ euroCountryName c
             ++ " is empty. Please run the update script.")
     ∧ (dashboard env req).nominal_chart_html
         = .text ("Euro data cache for " ++ euroCountryName c
             ++ " is empty. Please run the update script.")) := by
  constructor
  · intro hc hfile
    have hd : dashboard env req = usBranch env req := by
      unfold dashboard
      rw [hc]
      rfl
    rw [hd]
    unfold usBranch US_DASHBOARD_DATA
    rw [hfile]
    exact ⟨rfl, rfl⟩
  · intro c hceq hcodes hcache
    have hcc : c = "DE" ∨ c = "IT" ∨ c = "FR" := by
      simpa [EURO_COUNTRY_CODES] using hcodes
    have hd : dashboard env req = euroBranch env c := by
      unfold dashboard
      rw [hceq]
      rcases hcc with h | h | h <;> subst h <;> rfl
    rw [hd]
    unfold euroBranch
    rw [hcache]
    exact ⟨rfl, rfl⟩

/-- C8 (witness): a request for `US` against an absent US cache file
renders the placeholder. -/
theorem C8_missing_cache_placeholder_witness :
    (dashboard
      { usCacheFile := none, euroCacheFile := (fun _ => none),
        today := ⟨2025, 1, 1⟩ }
      { country := some "US", start_date := none, end_date := none }).chart_html
      = .text "US data cache is empty. Please run the update script." :=
  ((C8_missing_cache_placeholder
      { usCacheFile := none, euroCacheFile := (fun _ => none),
        today := ⟨2025, 1, 1⟩ }
      { country := some "US", start_date := none, end_date := none }).1
    rfl rfl).1

/-- C9 (counterexample): the US load path maps an absent cache file and a
present-but-empty cache file to the same empty table, so the caller
cannot distinguish "no cache yet" from "cache present but empty" for the
US source key — the missing file is silently treated as empty. -/
theorem C9_us_load_counterexample :
    US_DASHBOARD_DATA
      { usCacheFile := none, euroCacheFile := (fun _ => none),
        today := ⟨2025, 1, 1⟩ }
      = US_DASHBOARD_DATA
          { usCacheFile := some [],
            euroCacheFile := (fun _ => none), today := ⟨2025, 1, 1⟩ }
  ∧ US_DASHBOARD_DATA
      { usCacheFile := none, euroCacheFile := (fun _ => none),
        today := ⟨2025, 1, 1⟩ } = [] :=
  ⟨rfl, rfl⟩

/-- C9 (amended): the Euro load path signals a missing cache explicitly
(the per-request `FileNotFoundError` branch renders a message distinct
from the one a present-but-empty table produces), while the US startup
load silently turns a missing cache file into an empty table,
indistinguishable from a present-but-empty one. -/
theorem C9_load_distinguish_amended (e : String → Option EuroTable)
    (td : Date) :
    US_DASHBOARD_DATA { usCacheFile := none, euroCacheFile := e, today := td }
      = US_DASHBOARD_DATA
          { usCacheFile := some [], euroCacheFile := e, today := td }
  ∧ (dashboard
      { usCacheFile := some [], euroCacheFile := (fun _ => none),
        today := td }
      { country := some "DE", start_date := none,
        end_date := none }).chart_html
      = .text "Euro data cache for Germany is empty. Please run the update script."
  ∧ (dashboard
      { usCacheFile := some [],
        euroCacheFile := (fun _ => some { cols := [], rows := [] }),
        today := td }
      { country := some "DE", start_date := none,
        end_date := none }).chart_html
      = .text "No data to display." :=
  ⟨rfl, rfl, rfl⟩

/-- Unfolding of the renderer on a present table. -/
lemma create_euro_plotly_charts_some (t : EuroTable) (c : String) :
    create_euro_plotly_charts (some t) c =
      if t.rows.isEmpty || t.cols.isEmpty then
        (.text "No data to display.", .text "No data to display.")
      else if (df_positive t).isEmpty then
        (.text "No positive issuance data to plot.",
         .text "No positive issuance data to plot.")
      else
        (.chart { traces := euroPctTraces t,
                  shapes := (df_positive t).map fun r => r.1 },
         .chart { traces := euroNomTraces t,
                  shapes := (df_positive t).map fun r => r.1 }) := rfl

/-- C10: the Euro chart renderer divides only over months whose total
issuance across tenors is strictly positive — rows with zero or negative
total are filtered out of both charts before the division, so division by
zero is unreachable, and every month on either chart has a row with
strictly positive total; a `None` or empty input table yields the fixed
"No data to display." message for both charts. -/
theorem C10_euro_division_guard (df : Option EuroTable) (country : String) :
    ((df = none ∨ (∃ t, df = some t ∧ (t.rows.isEmpty || t.cols.isEmpty) = true)) →
       create_euro_plotly_charts df country
         = (.text "No data to display.", .text "No data to display."))
  ∧ (∀ t, df = some t → ∀ r ∈ df_positive t, 0 < rowTotal r)
  ∧ (∀ t, df = some t → ∀ fig tr m,
       ((create_euro_plotly_charts df country).1 = .chart fig ∨
        (create_euro_plotly_charts df country).2 = .chart fig) →
       tr ∈ fig.traces → m ∈ tr.x →
       ∃ r ∈ t.rows, r.1 = m ∧ 0 < rowTotal r) := by
  refine ⟨?_, ?_, ?_⟩
  · rintro (rfl | ⟨t, rfl, ht⟩)
    · rfl
    · rw [create_euro_plotly_charts_some, if_pos ht]
  · rintro t rfl r hr
    exact of_decide_eq_true (List.mem_filter.mp hr).2
  · rintro t rfl fig tr m hfig htr hm
    have hpos : ∀ r ∈ df_positive t, 0 < rowTotal r := fun r hr =>
      of_decide_eq_true (List.mem_filter.mp hr).2
    rw [create_euro_plotly_charts_some] at hfig
    by_cases h1 : (t.rows.isEmpty || t.cols.isEmpty) = true
    · rw [if_pos h1] at hfig
      rcases hfig with hfig | hfig <;> cases hfig
    · rw [if_neg h1] at hfig
      by_cases h2 : (df_positive t).isEmpty = true
      · rw [if_pos h2] at hfig
        rcases hfig with hfig | hfig <;> cases hfig
      · rw [if_neg h2] at hfig
        have hx : tr.x = (df_positive t).map fun r => r.1 := by
          rcases hfig with hfig | hfig
          · injection hfig with h3
            rw [← h3] at htr
            rcases List.mem_filterMap.mp htr with ⟨cat, _, hg⟩
            by_cases hcond : cat ∈ t.cols ∧
                0 < ((df_positive t).map fun r => euroPctCell t.cols r cat).sum
            · rw [if_pos hcond] at hg
              injection hg with h4
              rw [← h4]
            · rw [if_neg hcond] at hg
              cases hg
          · injection hfig with h3
            rw [← h3] at htr
            rcases List.mem_filterMap.mp htr with ⟨cat, _, hg⟩
            by_cases hcond : cat ∈ t.cols ∧
                0 < ((df_positive t).map fun r => euroColCell t.cols r cat / 1000).sum
            · rw [if_pos hcond] at hg
              injection hg with h4
              rw [← h4]
            · rw [if_neg hcond] at hg
              cases hg
        rw [hx] at hm
        rcases List.mem_map.mp hm with ⟨r, hrpos, hr1⟩
        exact ⟨r, (List.mem_filter.mp hrpos).1, hr1, hpos r hrpos⟩

/-- C10 (witness): a `None` input yields the fixed message pair. -/
theorem C10_euro_division_guard_witness :
    create_euro_plotly_charts none "Germany"
      = (.text "No data to display.", .text "No data to display.") :=
  (C10_euro_division_guard none "Germany").1 (Or.inl rfl)
